import Mathlib

/-!
Shallow embedding of the rsk-attestation-copilot core: the attestation
service (point-read, revocation, schema/attestation writes), the GraphQL
index query client (query construction, timeout, response normalization),
and the verify tool handler that derives validity booleans.

Timestamps are modelled as integers: ledger (uint256) timestamps as `Nat`,
JavaScript `number` timestamps as `Int` (parseInt can yield negatives).
JavaScript truthiness on optional strings / numbers is modelled explicitly.
-/

namespace RskAttest

/-- JavaScript `Number.MAX_SAFE_INTEGER = 2^53 - 1`. -/
def MAX_SAFE_INTEGER : Int := 2 ^ 53 - 1

/-- The all-zero sentinel attestation identifier meaning "no such record"
(the literal compared against in `attestationService.ts`). -/
def ZERO_UID : String :=
  "0x0000000000000000000000000000000000000000000000000000000000000000"

/-- Truthiness of an optional JavaScript string: `undefined` and the empty
string are falsy, every other string is truthy. -/
def jsTruthyStr : Option String → Bool
  | none => false
  | some s => decide (s ≠ "")

/-- The JavaScript pattern `v || d` for an optional string `v`: yields `d`
when `v` is `undefined` or empty, otherwise the string itself. -/
def jsOrDefaultStr (v : Option String) (d : String) : String :=
  match v with
  | none => d
  | some s => if s = "" then d else s

/-- The JavaScript pattern `v || d` for an optional number `v`: yields `d`
when `v` is `undefined` or `0` (both falsy), otherwise the number itself. -/
def jsOrDefaultInt (v : Option Int) (d : Int) : Int :=
  match v with
  | none => d
  | some n => if n = 0 then d else n

/-- Digits of a decimal numeral folded into a natural number. -/
def digitsToNat (cs : List Char) : Nat :=
  cs.foldl (fun acc c => acc * 10 + (c.toNat - 48)) 0

/-- JavaScript `parseInt(s, 10)`: skip leading whitespace, read an optional
sign and then a maximal run of decimal digits; `NaN` (modelled as `none`)
when no digit is read. -/
def jsParseInt (s : String) : Option Int :=
  let cs := s.data.dropWhile Char.isWhitespace
  let signAndRest : Int × List Char :=
    match cs with
    | '-' :: t => (-1, t)
    | '+' :: t => (1, t)
    | t => (1, t)
  let ds := signAndRest.2.takeWhile Char.isDigit
  if ds.isEmpty then none
  else some (signAndRest.1 * (digitsToNat ds : Int))

/-- The inline ternary `t <= Number.MAX_SAFE_INTEGER ? t : Number.MAX_SAFE_INTEGER`
applied to every timestamp field in `attestationService.ts` and
`graphqlService.ts` before the value leaves the ledger-facing boundary. -/
def normalizeTime (t : Int) : Int :=
  if t ≤ MAX_SAFE_INTEGER then t else MAX_SAFE_INTEGER

/-- On-chain attestation as returned by `eas.getAttestation` (`EASAttestation`
in `types/eas.ts`); the bigint uint256 timestamps are modelled as `Nat`. -/
structure EASAttestation where
  uid : String
  schema : String
  recipient : String
  attester : String
  revocable : Bool
  refUID : String
  data : String
  time : Nat
  expirationTime : Nat
  revocationTime : Nat
deriving Repr, DecidableEq

/-- `AttestationData` from `types/attestation.ts`: the client-facing record
with platform-number timestamps. -/
structure AttestationData where
  uid : String
  schema : String
  recipient : String
  attester : String
  revocable : Bool
  refUID : String
  data : String
  time : Int
  expirationTime : Int
  revocationTime : Int
deriving Repr, DecidableEq

/-- `AttestationService.verifyAttestation`: the ledger point read. The
argument is the result of `eas.getAttestation` (`none` models a missing
record object); a missing record or a record carrying the all-zero sentinel
uid yields `none`, otherwise the record with each timestamp clamped. -/
def AttestationService.verifyAttestation (attestation : Option EASAttestation) :
    Option AttestationData :=
  match attestation with
  | none => none
  | some a =>
    if a.uid = ZERO_UID then none
    else
      some { uid := a.uid, schema := a.schema, recipient := a.recipient,
             attester := a.attester, revocable := a.revocable, refUID := a.refUID,
             data := a.data,
             time := normalizeTime (a.time : Int),
             expirationTime := normalizeTime (a.expirationTime : Int),
             revocationTime := normalizeTime (a.revocationTime : Int) }

/-- A revocation write submitted to `eas.revoke` (schema uid and target uid). -/
structure RevokeCall where
  schema : String
  uid : String
deriving Repr, DecidableEq

/-- Outcome of `AttestationService.revokeAttestation`: the returned or thrown
value together with the list of revocation writes actually issued. -/
structure RevokeOutcome where
  result : Except String String
  revokeCalls : List RevokeCall
deriving Repr

/-- `AttestationService.revokeAttestation`: point-read the target uid first
(`attestation` is the `eas.getAttestation` result); a missing record or the
all-zero sentinel uid throws `Attestation <uid> not found` (wrapped by the
outer catch) before any write; otherwise `eas.revoke` is called with the
record's schema and the target uid, and `tx.hash || 'unknown'` is returned. -/
def AttestationService.revokeAttestation (uid : String)
    (attestation : Option EASAttestation) (txHash : Option String) : RevokeOutcome :=
  match attestation with
  | none =>
    { result := Except.error
        ("Failed to revoke attestation: " ++ ("Attestation " ++ uid ++ " not found")),
      revokeCalls := [] }
  | some a =>
    if a.uid = ZERO_UID then
      { result := Except.error
          ("Failed to revoke attestation: " ++ ("Attestation " ++ uid ++ " not found")),
        revokeCalls := [] }
    else
      { result := Except.ok (jsOrDefaultStr txHash "unknown"),
        revokeCalls := [{ schema := a.schema, uid := uid }] }

/-- Result of a confirmed write transaction: `hash` models `tx.hash` (an
absent or empty hash is falsy) and `derivedUID` models the value produced by
the optional `tx.getSchemaUID?.()` / `tx.getAttestationUID?.()` call —
`none` when the method is unsupported or yields `undefined`. -/
structure TxResult where
  hash : Option String
  derivedUID : Option String
deriving Repr

/-- The `{ uid, txHash }` pair returned by the write operations. -/
structure WriteResult where
  uid : String
  txHash : String
deriving Repr, DecidableEq

/-- `AttestationService.createSchema` after submission: a rejected submission
is wrapped by the outer catch; a confirmed one returns
`getSchemaUID?.() || 'unknown'` together with `tx.hash || 'unknown'`. -/
def AttestationService.createSchema (submission : Except String TxResult) :
    Except String WriteResult :=
  match submission with
  | Except.error e => Except.error ("Failed to create schema: " ++ e)
  | Except.ok tx =>
    Except.ok { uid := jsOrDefaultStr tx.derivedUID "unknown",
                txHash := jsOrDefaultStr tx.hash "unknown" }

/-- `AttestationService.issueAttestation` after submission: same
confirmation-and-derivation protocol as `createSchema`, with
`getAttestationUID?.() || 'unknown'`. -/
def AttestationService.issueAttestation (submission : Except String TxResult) :
    Except String WriteResult :=
  match submission with
  | Except.error e => Except.error ("Failed to issue attestation: " ++ e)
  | Except.ok tx =>
    Except.ok { uid := jsOrDefaultStr tx.derivedUID "unknown",
                txHash := jsOrDefaultStr tx.hash "unknown" }

/-- One attestation as delivered by the GraphQL index (all three timestamp
fields are wire strings); `schemaId` models the nested `schema { id }`. -/
structure GraphQLAttestation where
  id : String
  attester : String
  recipient : String
  revoked : Bool
  revocable : Bool
  refUID : String
  data : String
  timeCreated : String
  expirationTime : String
  revocationTime : String
  schemaId : String
deriving Repr, DecidableEq

/-- Body of a `queryAttestations` response: `dataAttestations` models the
optional `data.attestations` payload container, `errors` the optional
service-level error messages. -/
structure GraphQLResponse where
  dataAttestations : Option (List GraphQLAttestation)
  errors : Option (List String)
deriving Repr

/-- Body of a `queryAttestationsByUID` response: `dataAttestation` models the
optional `data` container holding `attestation` (`null` for no record); the
wire may also carry `errors`, which this response type in the source never
reads. -/
structure GraphQLSingleResponse where
  dataAttestation : Option (Option GraphQLAttestation)
  errors : Option (List String)
deriving Repr

/-- An HTTP response: `ok`, `status`, `statusText` and the parsed JSON body. -/
structure HttpResponse (β : Type) where
  ok : Bool
  status : Nat
  statusText : String
  body : β
deriving Repr

/-- Message of the abort error with which `fetch` rejects when its
`AbortController` fires. -/
def abortErrorMessage : String := "This operation was aborted"

/-- The deadline installed by `setTimeout(() => controller.abort(), 30000)`
at both GraphQL call sites. -/
def GraphQLService.queryTimeoutMs : Nat := 30000

/-- Models `fetch` raced against the 30-second abort timer: `arrival = none`
means no response ever arrives (the timer aborts the in-flight request);
`some (t, r)` means response `r` arrives `t` milliseconds after the request
and is aborted exactly when the timer has already fired. -/
def fetchWithTimeout {β : Type} (arrival : Option (Nat × HttpResponse β)) :
    Except String (HttpResponse β) :=
  match arrival with
  | none => Except.error abortErrorMessage
  | some (t, r) =>
    if GraphQLService.queryTimeoutMs ≤ t then Except.error abortErrorMessage
    else Except.ok r

/-- Domain-level parse of one GraphQL attestation (the body of the `.map`
callback in `queryAttestations`, duplicated verbatim in
`queryAttestationsByUID`): `parseInt` each timestamp string, throw
`Invalid time value in attestation data for UID <id>` when any is NaN,
otherwise build the `AttestationData` with each timestamp clamped. -/
def transformAttestation (g : GraphQLAttestation) : Except String AttestationData :=
  match jsParseInt g.timeCreated, jsParseInt g.expirationTime, jsParseInt g.revocationTime with
  | some tc, some et, some rt =>
    Except.ok { uid := g.id, schema := g.schemaId, recipient := g.recipient,
                attester := g.attester, revocable := g.revocable, refUID := g.refUID,
                data := g.data,
                time := normalizeTime tc,
                expirationTime := normalizeTime et,
                revocationTime := normalizeTime rt }
  | _, _, _ =>
    Except.error ("Invalid time value in attestation data for UID " ++ g.id)

/-- The `.map` over the returned attestation list: a throw from the callback
aborts the whole traversal with that error. -/
def transformAttestations : List GraphQLAttestation → Except String (List AttestationData)
  | [] => Except.ok []
  | g :: gs =>
    match transformAttestation g with
    | Except.error e => Except.error e
    | Except.ok r =>
      match transformAttestations gs with
      | Except.error e => Except.error e
      | Except.ok rs => Except.ok (r :: rs)

/-- Response handling of `GraphQLService.queryAttestations` up to the outer
catch: abort and non-ok status throw; a present `errors` array throws
`GraphQL errors: ...`; a missing `data` container throws
`No data returned from GraphQL query`; otherwise every record is
transformed. -/
def GraphQLService.queryAttestationsCore
    (fetched : Except String (HttpResponse GraphQLResponse)) :
    Except String (List AttestationData) :=
  match fetched with
  | Except.error e => Except.error e
  | Except.ok httpResponse =>
    if httpResponse.ok = false then
      Except.error ("HTTP " ++ toString httpResponse.status ++ ": " ++ httpResponse.statusText)
    else
      match httpResponse.body.errors with
      | some es => Except.error ("GraphQL errors: " ++ String.intercalate ", " es)
      | none =>
        match httpResponse.body.dataAttestations with
        | none => Except.error "No data returned from GraphQL query"
        | some atts => transformAttestations atts

/-- `GraphQLService.queryAttestations` with its outer catch, which rewraps
every thrown message as `GraphQL query failed: <message>`. -/
def GraphQLService.queryAttestations
    (arrival : Option (Nat × HttpResponse GraphQLResponse)) :
    Except String (List AttestationData) :=
  match GraphQLService.queryAttestationsCore (fetchWithTimeout arrival) with
  | Except.error e => Except.error ("GraphQL query failed: " ++ e)
  | Except.ok v => Except.ok v

/-- Response handling of `GraphQLService.queryAttestationsByUID` up to the
outer catch: abort and non-ok status throw; then the single check
`!response.data?.attestation` returns `null` — the `errors` field is never
consulted and a missing `data` container is treated as no record; a present
record is transformed (same inline code as in `queryAttestations`). -/
def GraphQLService.queryAttestationsByUIDCore
    (fetched : Except String (HttpResponse GraphQLSingleResponse)) :
    Except String (Option AttestationData) :=
  match fetched with
  | Except.error e => Except.error e
  | Except.ok httpResponse =>
    if httpResponse.ok = false then
      Except.error ("HTTP " ++ toString httpResponse.status ++ ": " ++ httpResponse.statusText)
    else
      match httpResponse.body.dataAttestation with
      | none => Except.ok none
      | some none => Except.ok none
      | some (some g) =>
        match transformAttestation g with
        | Except.error e => Except.error e
        | Except.ok r => Except.ok (some r)

/-- `GraphQLService.queryAttestationsByUID` with its outer catch, which
rewraps every thrown message as `GraphQL attestation query failed: <message>`. -/
def GraphQLService.queryAttestationsByUID
    (arrival : Option (Nat × HttpResponse GraphQLSingleResponse)) :
    Except String (Option AttestationData) :=
  match GraphQLService.queryAttestationsByUIDCore (fetchWithTimeout arrival) with
  | Except.error e => Except.error ("GraphQL attestation query failed: " ++ e)
  | Except.ok v => Except.ok v

/-- The filter object accepted by `queryAttestations` (and passed through
unchanged by `AttestationService.listAttestations`). -/
structure QueryFilters where
  recipient : Option String
  attester : Option String
  schema : Option String
  limit : Option Int
deriving Repr, DecidableEq

/-- A filter clause of the GraphQL `where` block. -/
inductive WhereClause where
  | recipient
  | attester
  | schemaId
deriving Repr, DecidableEq

/-- The `where` block built by the template-string interpolations
`filters.recipient ? 'recipient: $recipient,' : ''` (and likewise for
attester and schema): each clause is present exactly when the corresponding
filter string is truthy. -/
def GraphQLService.buildWhereClauses (f : QueryFilters) : List WhereClause :=
  (if jsTruthyStr f.recipient then [WhereClause.recipient] else []) ++
  (if jsTruthyStr f.attester then [WhereClause.attester] else []) ++
  (if jsTruthyStr f.schema then [WhereClause.schemaId] else [])

/-- The `variables` object sent with the `queryAttestations` request. -/
structure QueryVariables where
  recipient : Option String
  attester : Option String
  schema : Option String
  limit : Int
deriving Repr, DecidableEq

/-- Construction of the request variables: the filters pass through and
`limit` is `filters.limit || 10`. -/
def GraphQLService.buildQueryVariables (f : QueryFilters) : QueryVariables :=
  { recipient := f.recipient, attester := f.attester, schema := f.schema,
    limit := jsOrDefaultInt f.limit 10 }

/-- An `AttestationData` augmented with the three derived booleans returned
by the verify tool handler. -/
structure VerifiedAttestation where
  attestation : AttestationData
  isValid : Bool
  isRevoked : Bool
  isExpired : Bool
deriving Repr, DecidableEq

/-- The `{success, message, data}` shape every tool handler returns. -/
structure ToolResponse (α : Type) where
  success : Bool
  message : String
  data : Option α
deriving Repr

/-- `handleVerifyAttestation` from `tools/handlers.ts`, applied to the
service result: `now` models `Math.floor(Date.now() / 1000)`, wall-clock
seconds fetched fresh at evaluation. -/
def handleVerifyAttestation (attestation : Option AttestationData) (now : Int) :
    ToolResponse VerifiedAttestation :=
  match attestation with
  | none => { success := false, message := "Attestation not found", data := none }
  | some att =>
    let valid : Bool := decide (att.revocationTime = 0)
    let expired : Bool := decide (att.expirationTime > 0) && decide (att.expirationTime < now)
    { success := true,
      message := "Attestation " ++ (if valid && !expired then "is valid" else "is invalid/expired"),
      data := some { attestation := att,
                     isValid := valid && !expired,
                     isRevoked := decide (att.revocationTime > 0),
                     isExpired := expired } }

/-! Concrete sample values used by counterexamples and witnesses. -/

/-- Sample client-facing record: revoked at ledger second 5, never expires. -/
def sampleAttestation : AttestationData :=
  { uid := "0xabc", schema := "0xdef", recipient := "0x1111", attester := "0x2222",
    revocable := true, refUID := ZERO_UID, data := "0x00",
    time := 100, expirationTime := 0, revocationTime := 5 }

/-- Sample on-chain record matching `sampleAttestation` before clamping. -/
def sampleEASAttestation : EASAttestation :=
  { uid := "0xabc", schema := "0xdef", recipient := "0x1111", attester := "0x2222",
    revocable := true, refUID := ZERO_UID, data := "0x00",
    time := 100, expirationTime := 0, revocationTime := 5 }

/-- Sample on-chain record carrying the all-zero sentinel identifier. -/
def zeroUidEASAttestation : EASAttestation :=
  { uid := ZERO_UID, schema := "0xdef", recipient := "0x1111", attester := "0x2222",
    revocable := true, refUID := ZERO_UID, data := "0x00",
    time := 100, expirationTime := 0, revocationTime := 0 }

/-- Sample index record whose identifier is the all-zero sentinel. -/
def zeroUidGraphQLAttestation : GraphQLAttestation :=
  { id := ZERO_UID, attester := "0x2222", recipient := "0x1111", revoked := false,
    revocable := true, refUID := ZERO_UID, data := "0x00",
    timeCreated := "100", expirationTime := "0", revocationTime := "0",
    schemaId := "0xdef" }

/-- The record `transformAttestation` builds from `zeroUidGraphQLAttestation`. -/
def zeroUidTransformed : AttestationData :=
  { uid := ZERO_UID, schema := "0xdef", recipient := "0x1111", attester := "0x2222",
    revocable := true, refUID := ZERO_UID, data := "0x00",
    time := 100, expirationTime := 0, revocationTime := 0 }

/-- Sample index record parsed by `transformAttestation` without error. -/
def sampleGraphQLAttestation : GraphQLAttestation :=
  { id := "0xfeed", attester := "0x2222", recipient := "0x1111", revoked := false,
    revocable := true, refUID := ZERO_UID, data := "0x00",
    timeCreated := "100", expirationTime := "0", revocationTime := "0",
    schemaId := "0xdef" }

/-- The record `transformAttestation` builds from `sampleGraphQLAttestation`. -/
def sampleGraphQLTransformed : AttestationData :=
  { uid := "0xfeed", schema := "0xdef", recipient := "0x1111", attester := "0x2222",
    revocable := true, refUID := ZERO_UID, data := "0x00",
    time := 100, expirationTime := 0, revocationTime := 0 }

/-- Successful single-record index response carrying the zero-uid record. -/
def zeroUidSingleResponse : HttpResponse GraphQLSingleResponse :=
  { ok := true, status := 200, statusText := "OK",
    body := { dataAttestation := some (some zeroUidGraphQLAttestation), errors := none } }

/-! Helper lemmas shared by several claim proofs. -/

/-- Response arriving strictly before the deadline is delivered. -/
theorem fetchWithTimeout_before {β : Type} (t : Nat) (r : HttpResponse β)
    (h : t < GraphQLService.queryTimeoutMs) :
    fetchWithTimeout (some (t, r)) = Except.ok r := by
  simp only [fetchWithTimeout]
  rw [if_neg (not_le.mpr h)]

/-- Response not arriving before the deadline is aborted. -/
theorem fetchWithTimeout_elapsed {β : Type} (t : Nat) (r : HttpResponse β)
    (h : GraphQLService.queryTimeoutMs ≤ t) :
    fetchWithTimeout (some (t, r)) = Except.error abortErrorMessage := by
  simp only [fetchWithTimeout]
  rw [if_pos h]

/-! Claim theorems. -/

/-- C1: for every attestation record found by `verifyAttestation`, the verify
handler returns the record augmented with exactly
`isValid = (revocationTime = 0) ∧ ¬(expirationTime > 0 ∧ expirationTime < now)`,
`isRevoked = revocationTime > 0` and
`isExpired = expirationTime > 0 ∧ expirationTime < now`, where `now` is the
wall-clock second count fetched at evaluation; in particular every record with
`revocationTime > 0` yields `isValid = false` and `isRevoked = true`
regardless of expiration. -/
theorem C1_verify_derived_booleans (att : AttestationData) (now : Int) :
    ∃ v : VerifiedAttestation,
      (handleVerifyAttestation (some att) now).data = some v ∧
      v.attestation = att ∧
      (v.isValid = true ↔
        (att.revocationTime = 0 ∧ ¬ (0 < att.expirationTime ∧ att.expirationTime < now))) ∧
      (v.isRevoked = true ↔ 0 < att.revocationTime) ∧
      (v.isExpired = true ↔ (0 < att.expirationTime ∧ att.expirationTime < now)) ∧
      (0 < att.revocationTime → v.isValid = false ∧ v.isRevoked = true) := by
  refine ⟨_, rfl, rfl, ?_, ?_, ?_, ?_⟩
  · simp [handleVerifyAttestation]
    omega
  · simp
  · simp
  · intro h
    have hne : ¬ (att.revocationTime = 0) := by omega
    constructor
    · simp [decide_eq_false hne]
    · simp [decide_eq_true h]

/-- C1 witness: the derived-boolean theorem evaluated on a concrete revoked
record at wall-clock second 1000. -/
theorem C1_verify_derived_booleans_witness :
    ∃ v : VerifiedAttestation,
      (handleVerifyAttestation (some sampleAttestation) 1000).data = some v ∧
      v.attestation = sampleAttestation ∧
      (v.isValid = true ↔
        (sampleAttestation.revocationTime = 0 ∧
          ¬ (0 < sampleAttestation.expirationTime ∧ sampleAttestation.expirationTime < 1000))) ∧
      (v.isRevoked = true ↔ 0 < sampleAttestation.revocationTime) ∧
      (v.isExpired = true ↔
        (0 < sampleAttestation.expirationTime ∧ sampleAttestation.expirationTime < 1000)) ∧
      (0 < sampleAttestation.revocationTime → v.isValid = false ∧ v.isRevoked = true) :=
  C1_verify_derived_booleans sampleAttestation 1000

/-- C2 counterexample: the index point lookup performs no sentinel check —
fed a successful response whose record carries the all-zero sentinel
identifier, `queryAttestationsByUID` surfaces it as a real record instead of
translating it to the absent signal. -/
theorem C2_sentinel_counterexample :
    GraphQLService.queryAttestationsByUID (some (0, zeroUidSingleResponse)) =
      Except.ok (some zeroUidTransformed) ∧ zeroUidTransformed.uid = ZERO_UID ∧
    GraphQLService.queryAttestationsByUID (some (0, zeroUidSingleResponse)) ≠
      Except.ok none := by
  refine ⟨rfl, rfl, ?_⟩
  intro h
  have h0 : GraphQLService.queryAttestationsByUID (some (0, zeroUidSingleResponse)) =
      Except.ok (some zeroUidTransformed) := rfl
  rw [h0] at h
  injection h with h
  exact Option.noConfusion h

/-- C2 amended: the ledger point-read paths (`verifyAttestation` and the
pre-revocation lookup of `revokeAttestation`) translate a missing record or
the all-zero sentinel identifier into an explicit absence signal (`null`
respectively a thrown error with no write issued), and the index point
lookup yields the absent signal whenever the response carries no record —
but the index query paths perform no sentinel check of their own. -/
theorem C2_sentinel_absence_amended :
    (AttestationService.verifyAttestation none = none) ∧
    (∀ a : EASAttestation, a.uid = ZERO_UID →
        AttestationService.verifyAttestation (some a) = none) ∧
    (∀ (uid : String) (txh : Option String),
        (AttestationService.revokeAttestation uid none txh).revokeCalls = [] ∧
        ∃ m, (AttestationService.revokeAttestation uid none txh).result = Except.error m) ∧
    (∀ (uid : String) (a : EASAttestation) (txh : Option String), a.uid = ZERO_UID →
        (AttestationService.revokeAttestation uid (some a) txh).revokeCalls = [] ∧
        ∃ m, (AttestationService.revokeAttestation uid (some a) txh).result = Except.error m) ∧
    (∀ hr : HttpResponse GraphQLSingleResponse, hr.ok = true →
        (hr.body.dataAttestation = none ∨ hr.body.dataAttestation = some none) →
        GraphQLService.queryAttestationsByUID (some (0, hr)) = Except.ok none) := by
  refine ⟨rfl, ?_, ?_, ?_, ?_⟩
  · intro a ha
    simp [AttestationService.verifyAttestation, ha]
  · intro uid txh
    exact ⟨rfl,
      ⟨"Failed to revoke attestation: " ++ ("Attestation " ++ uid ++ " not found"), rfl⟩⟩
  · intro uid a txh ha
    constructor
    · simp [AttestationService.revokeAttestation, ha]
    · exact ⟨"Failed to revoke attestation: " ++ ("Attestation " ++ uid ++ " not found"),
        by simp [AttestationService.revokeAttestation, ha]⟩
  · intro hr hok habs
    have h1 : fetchWithTimeout (some ((0 : Nat), hr)) = Except.ok hr :=
      fetchWithTimeout_before 0 hr (by decide)
    simp only [GraphQLService.queryAttestationsByUID, h1,
      GraphQLService.queryAttestationsByUIDCore]
    rw [hok]
    rw [if_neg (by decide)]
    rcases habs with h | h <;> rw [h]

/-- C2 witness: the amended theorem evaluated on a concrete sentinel record. -/
theorem C2_sentinel_absence_witness :
    AttestationService.verifyAttestation (some zeroUidEASAttestation) = none ∧
    (AttestationService.revokeAttestation "0xdead" (some zeroUidEASAttestation) none).revokeCalls
      = [] :=
  ⟨C2_sentinel_absence_amended.2.1 zeroUidEASAttestation rfl,
   (C2_sentinel_absence_amended.2.2.2.1 "0xdead" zeroUidEASAttestation none rfl).1⟩

/-- C3: the timestamp normalization is loss-free up to the platform's maximum
safe integer and saturates to exactly `MAX_SAFE_INTEGER` above it (never a
wraparound), and both the point-read path and the index-query transformation
apply it to all three timestamp fields. -/
theorem C3_normalize_saturating :
    (∀ t : Int, 0 ≤ t → t ≤ MAX_SAFE_INTEGER → normalizeTime t = t) ∧
    (∀ t : Int, MAX_SAFE_INTEGER < t → normalizeTime t = MAX_SAFE_INTEGER) ∧
    (∀ (a : EASAttestation) (r : AttestationData),
        AttestationService.verifyAttestation (some a) = some r →
          r.time = normalizeTime (a.time : Int) ∧
          r.expirationTime = normalizeTime (a.expirationTime : Int) ∧
          r.revocationTime = normalizeTime (a.revocationTime : Int)) ∧
    (∀ (g : GraphQLAttestation) (r : AttestationData),
        transformAttestation g = Except.ok r →
          ∃ tc et rt : Int,
            jsParseInt g.timeCreated = some tc ∧
            jsParseInt g.expirationTime = some et ∧
            jsParseInt g.revocationTime = some rt ∧
            r.time = normalizeTime tc ∧
            r.expirationTime = normalizeTime et ∧
            r.revocationTime = normalizeTime rt) := by
  refine ⟨?_, ?_, ?_, ?_⟩
  · intro t _ h
    simp [normalizeTime, h]
  · intro t h
    simp [normalizeTime, not_le.mpr h]
  · intro a r h
    simp only [AttestationService.verifyAttestation] at h
    by_cases hz : a.uid = ZERO_UID
    · rw [if_pos hz] at h
      exact Option.noConfusion h
    · rw [if_neg hz] at h
      injection h with h
      subst h
      exact ⟨rfl, rfl, rfl⟩
  · intro g r h
    cases htc : jsParseInt g.timeCreated with
    | none =>
      rw [transformAttestation, htc] at h
      exact Except.noConfusion h
    | some tc =>
      cases het : jsParseInt g.expirationTime with
      | none =>
        rw [transformAttestation, htc, het] at h
        exact Except.noConfusion h
      | some et =>
        cases hrt : jsParseInt g.revocationTime with
        | none =>
          rw [transformAttestation, htc, het, hrt] at h
          exact Except.noConfusion h
        | some rt =>
          rw [transformAttestation, htc, het, hrt] at h
          injection h with h
          subst h
          exact ⟨tc, et, rt, rfl, rfl, rfl, rfl, rfl, rfl⟩

/-- C3 witness: normalization evaluated below and above the safe-integer
bound, and the field-wise clamping on concrete point-read and index records. -/
theorem C3_normalize_saturating_witness :
    normalizeTime 42 = 42 ∧
    normalizeTime (MAX_SAFE_INTEGER + 1) = MAX_SAFE_INTEGER ∧
    (sampleAttestation.time = normalizeTime (sampleEASAttestation.time : Int) ∧
      sampleAttestation.expirationTime = normalizeTime (sampleEASAttestation.expirationTime : Int) ∧
      sampleAttestation.revocationTime = normalizeTime (sampleEASAttestation.revocationTime : Int)) ∧
    (∃ tc et rt : Int,
      jsParseInt sampleGraphQLAttestation.timeCreated = some tc ∧
      jsParseInt sampleGraphQLAttestation.expirationTime = some et ∧
      jsParseInt sampleGraphQLAttestation.revocationTime = some rt ∧
      sampleGraphQLTransformed.time = normalizeTime tc ∧
      sampleGraphQLTransformed.expirationTime = normalizeTime et ∧
      sampleGraphQLTransformed.revocationTime = normalizeTime rt) :=
  ⟨C3_normalize_saturating.1 42 (by decide) (by decide),
   C3_normalize_saturating.2.1 (MAX_SAFE_INTEGER + 1) (by decide),
   C3_normalize_saturating.2.2.1 sampleEASAttestation sampleAttestation rfl,
   C3_normalize_saturating.2.2.2 sampleGraphQLAttestation sampleGraphQLTransformed rfl⟩

/-- C4: a `revokeAttestation` call whose prerequisite point read yields a
missing record or the all-zero sentinel fails with a not-found error naming
the missing identifier, and issues no revocation write. -/
theorem C4_revoke_absent_no_write (uid : String) (attestation : Option EASAttestation)
    (txh : Option String)
    (h : attestation = none ∨ ∃ a, attestation = some a ∧ a.uid = ZERO_UID) :
    (AttestationService.revokeAttestation uid attestation txh).result =
      Except.error
        ("Failed to revoke attestation: " ++ ("Attestation " ++ uid ++ " not found")) ∧
    (AttestationService.revokeAttestation uid attestation txh).revokeCalls = [] := by
  rcases h with h | ⟨a, ha, hz⟩
  · subst h
    exact ⟨rfl, rfl⟩
  · subst ha
    constructor
    · simp [AttestationService.revokeAttestation, hz]
    · simp [AttestationService.revokeAttestation, hz]

/-- C4 witness: revocation of a never-issued identifier fails with the
not-found message and an empty write list. -/
theorem C4_revoke_absent_no_write_witness :
    (AttestationService.revokeAttestation "0xabc" none none).result =
      Except.error
        ("Failed to revoke attestation: " ++ ("Attestation " ++ "0xabc" ++ " not found")) ∧
    (AttestationService.revokeAttestation "0xabc" none none).revokeCalls = [] :=
  C4_revoke_absent_no_write "0xabc" none none (Or.inl rfl)

/-- C5 counterexample: clause presence is a JavaScript truthiness check, so a
supplied empty-string recipient filter produces no recipient clause —
against "a clause for exactly the filters actually supplied". -/
theorem C5_empty_filter_counterexample :
    (QueryFilters.mk (some "") none none none).recipient.isSome = true ∧
    GraphQLService.buildWhereClauses (QueryFilters.mk (some "") none none none) = [] ∧
    GraphQLService.buildWhereClauses (QueryFilters.mk (some "") none none none) ≠
      [WhereClause.recipient] :=
  ⟨rfl, rfl, by decide⟩

/-- C5 amended: the constructed where block contains a clause exactly for the
filters supplied with a non-empty value (presence is a truthiness check, so
an empty-string filter is treated as absent); in particular a call whose only
filter is a non-empty recipient yields exactly the recipient clause. -/
theorem C5_where_clauses_truthy (f : QueryFilters) :
    (WhereClause.recipient ∈ GraphQLService.buildWhereClauses f ↔
      ∃ s, f.recipient = some s ∧ s ≠ "") ∧
    (WhereClause.attester ∈ GraphQLService.buildWhereClauses f ↔
      ∃ s, f.attester = some s ∧ s ≠ "") ∧
    (WhereClause.schemaId ∈ GraphQLService.buildWhereClauses f ↔
      ∃ s, f.schema = some s ∧ s ≠ "") ∧
    (∀ R : String, R ≠ "" →
      GraphQLService.buildWhereClauses
        { recipient := some R, attester := none, schema := none, limit := none } =
        [WhereClause.recipient]) := by
  have truthy_iff : ∀ v : Option String, jsTruthyStr v = true ↔ ∃ s, v = some s ∧ s ≠ "" := by
    intro v
    cases v with
    | none => simp [jsTruthyStr]
    | some s => simp [jsTruthyStr]
  have mem_iff : ∀ (w : WhereClause) (c1 c2 c3 : Bool),
      (w ∈ (if c1 then [WhereClause.recipient] else []) ++
        (if c2 then [WhereClause.attester] else []) ++
        (if c3 then [WhereClause.schemaId] else [])) ↔
      ((c1 = true ∧ w = WhereClause.recipient) ∨ (c2 = true ∧ w = WhereClause.attester) ∨
        (c3 = true ∧ w = WhereClause.schemaId)) := by
    intro w c1 c2 c3
    cases c1 <;> cases c2 <;> cases c3 <;> simp [List.mem_append, or_comm, and_comm]
  refine ⟨?_, ?_, ?_, ?_⟩
  · rw [GraphQLService.buildWhereClauses, mem_iff, ← truthy_iff]
    simp
  · rw [GraphQLService.buildWhereClauses, mem_iff, ← truthy_iff]
    simp
  · rw [GraphQLService.buildWhereClauses, mem_iff, ← truthy_iff]
    simp
  · intro R hR
    simp [GraphQLService.buildWhereClauses, jsTruthyStr, hR]

/-- C5 witness: the amended theorem evaluated on a lone non-empty recipient
filter. -/
theorem C5_where_clauses_truthy_witness :
    GraphQLService.buildWhereClauses
      { recipient := some "0x1111", attester := none, schema := none, limit := none } =
      [WhereClause.recipient] :=
  (C5_where_clauses_truthy
    { recipient := some "0x1111", attester := none, schema := none, limit := none }).2.2.2
    "0x1111" (by decide)

/-- A GraphQL record at least one of whose timestamp strings fails to parse. -/
def badTime (g : GraphQLAttestation) : Prop :=
  jsParseInt g.timeCreated = none ∨ jsParseInt g.expirationTime = none ∨
    jsParseInt g.revocationTime = none

/-- A record with an unparseable timestamp makes the transformation throw the
data-integrity error naming the record's identifier. -/
theorem transformAttestation_error_of_badTime (g : GraphQLAttestation) (h : badTime g) :
    transformAttestation g =
      Except.error ("Invalid time value in attestation data for UID " ++ g.id) := by
  rcases htc : jsParseInt g.timeCreated with _ | tc
  · rw [transformAttestation, htc]
  · rcases het : jsParseInt g.expirationTime with _ | et
    · rw [transformAttestation, htc, het]
    · rcases hrt : jsParseInt g.revocationTime with _ | rt
      · rw [transformAttestation, htc, het, hrt]
      · exfalso
        rcases h with h | h | h
        · rw [htc] at h
          exact Option.noConfusion h
        · rw [het] at h
          exact Option.noConfusion h
        · rw [hrt] at h
          exact Option.noConfusion h

/-- A record all of whose timestamps parse is transformed without error. -/
theorem transformAttestation_ok_of_not_badTime (g : GraphQLAttestation) (h : ¬ badTime g) :
    ∃ r, transformAttestation g = Except.ok r := by
  rw [badTime] at h
  push_neg at h
  obtain ⟨h1, h2, h3⟩ := h
  rcases htc : jsParseInt g.timeCreated with _ | tc
  · exact absurd htc h1
  · rcases het : jsParseInt g.expirationTime with _ | et
    · exact absurd het h2
    · rcases hrt : jsParseInt g.revocationTime with _ | rt
      · exact absurd hrt h3
      · exact ⟨_, by rw [transformAttestation, htc, het, hrt]⟩

/-- A list containing a record with an unparseable timestamp makes the whole
traversal abort with the data-integrity error of such a record. -/
theorem transformAttestations_error_of_badTime (l : List GraphQLAttestation)
    (hl : ∃ g ∈ l, badTime g) :
    ∃ g ∈ l, badTime g ∧ transformAttestations l =
      Except.error ("Invalid time value in attestation data for UID " ++ g.id) := by
  induction l with
  | nil =>
    rcases hl with ⟨g, hg, _⟩
    exact absurd hg (List.not_mem_nil g)
  | cons a as ih =>
    by_cases ha : badTime a
    · refine ⟨a, List.mem_cons_self a as, ha, ?_⟩
      rw [transformAttestations, transformAttestation_error_of_badTime a ha]
    · have has : ∃ g ∈ as, badTime g := by
        rcases hl with ⟨g, hg, hbad⟩
        rcases List.mem_cons.mp hg with heq | hmem
        · exact absurd (heq ▸ hbad) ha
        · exact ⟨g, hmem, hbad⟩
      rcases ih has with ⟨g, hmem, hbad, herr⟩
      refine ⟨g, List.mem_cons_of_mem a hmem, hbad, ?_⟩
      rcases transformAttestation_ok_of_not_badTime a ha with ⟨r, hr⟩
      rw [transformAttestations, hr, herr]

/-- C6: an index response in which any returned record's timestamp fails to
parse as an integer aborts the whole call — for the list query with a
data-integrity error naming an offending record's identifier, for the single
lookup naming the record itself — with no default substituted. -/
theorem C6_bad_timestamp_aborts :
    (∀ (hr : HttpResponse GraphQLResponse) (l : List GraphQLAttestation),
        hr.ok = true → hr.body.errors = none → hr.body.dataAttestations = some l →
        (∃ g ∈ l, badTime g) →
        ∃ g ∈ l, badTime g ∧
          GraphQLService.queryAttestations (some (0, hr)) =
            Except.error ("GraphQL query failed: " ++
              ("Invalid time value in attestation data for UID " ++ g.id))) ∧
    (∀ (hr : HttpResponse GraphQLSingleResponse) (g : GraphQLAttestation),
        hr.ok = true → hr.body.dataAttestation = some (some g) → badTime g →
        GraphQLService.queryAttestationsByUID (some (0, hr)) =
          Except.error ("GraphQL attestation query failed: " ++
            ("Invalid time value in attestation data for UID " ++ g.id))) := by
  constructor
  · intro hr l hok herrs hdata hbadl
    rcases transformAttestations_error_of_badTime l hbadl with ⟨g, hmem, hbad, herr⟩
    refine ⟨g, hmem, hbad, ?_⟩
    have h1 : fetchWithTimeout (some ((0 : Nat), hr)) = Except.ok hr :=
      fetchWithTimeout_before 0 hr (by decide)
    simp only [GraphQLService.queryAttestations, h1, GraphQLService.queryAttestationsCore]
    rw [hok]
    rw [if_neg (by decide)]
    rw [herrs, hdata]
    simp only [herr]
  · intro hr g hok hdata hbad
    have h1 : fetchWithTimeout (some ((0 : Nat), hr)) = Except.ok hr :=
      fetchWithTimeout_before 0 hr (by decide)
    simp only [GraphQLService.queryAttestationsByUID, h1,
      GraphQLService.queryAttestationsByUIDCore]
    rw [hok]
    rw [if_neg (by decide)]
    rw [hdata]
    simp only [transformAttestation_error_of_badTime g hbad]

/-- Index record whose creation-time string is not numeric. -/
def badGraphQLAttestation : GraphQLAttestation :=
  { id := "0xbad", attester := "0x2222", recipient := "0x1111", revoked := false,
    revocable := true, refUID := ZERO_UID, data := "0x00",
    timeCreated := "abc", expirationTime := "0", revocationTime := "0",
    schemaId := "0xdef" }

/-- Successful list response whose only record has the bad timestamp. -/
def badListResponse : HttpResponse GraphQLResponse :=
  { ok := true, status := 200, statusText := "OK",
    body := { dataAttestations := some [badGraphQLAttestation], errors := none } }

/-- C6 witness: the abort theorem evaluated on a concrete response holding one
record with a non-numeric creation time. -/
theorem C6_bad_timestamp_aborts_witness :
    ∃ g ∈ [badGraphQLAttestation], badTime g ∧
      GraphQLService.queryAttestations (some (0, badListResponse)) =
        Except.error ("GraphQL query failed: " ++
          ("Invalid time value in attestation data for UID " ++ g.id)) :=
  C6_bad_timestamp_aborts.1 badListResponse [badGraphQLAttestation] rfl rfl rfl
    ⟨badGraphQLAttestation, List.mem_cons_self _ _, Or.inl (by decide)⟩

/-- Successful transport response for the single lookup that carries only a
service-level error entry and no payload container. -/
def errorsOnlySingleResponse : HttpResponse GraphQLSingleResponse :=
  { ok := true, status := 200, statusText := "OK",
    body := { dataAttestation := none, errors := some ["boom"] } }

/-- C7 counterexample: `queryAttestationsByUID`, fed a transport-successful
response that carries a service-level error entry and no payload container,
returns the absent signal instead of failing — the source never reads the
response's error entries. -/
theorem C7_queryOne_errors_swallowed_counterexample :
    GraphQLService.queryAttestationsByUID (some (0, errorsOnlySingleResponse)) =
      Except.ok none ∧
    ∀ e, GraphQLService.queryAttestationsByUID (some (0, errorsOnlySingleResponse)) ≠
      Except.error e := by
  refine ⟨rfl, ?_⟩
  intro e h
  have h0 : GraphQLService.queryAttestationsByUID (some (0, errorsOnlySingleResponse)) =
      Except.ok none := rfl
  rw [h0] at h
  exact Except.noConfusion h

/-- C7 amended: the single lookup fails fast on a non-success transport
status (and on timeout, as every request does), but — unlike the list query,
which fails fast on service-level error entries and on a missing payload
container — it treats both of those single-lookup conditions as "no record"
and yields the absent signal. -/
theorem C7_queryOne_response_rules :
    (∀ (hr : HttpResponse GraphQLSingleResponse) (t : Nat), hr.ok = false →
        t < GraphQLService.queryTimeoutMs →
        GraphQLService.queryAttestationsByUID (some (t, hr)) =
          Except.error ("GraphQL attestation query failed: " ++
            ("HTTP " ++ toString hr.status ++ ": " ++ hr.statusText))) ∧
    (∀ (hr : HttpResponse GraphQLSingleResponse) (t : Nat), hr.ok = true →
        t < GraphQLService.queryTimeoutMs →
        (hr.body.dataAttestation = none ∨ hr.body.dataAttestation = some none) →
        GraphQLService.queryAttestationsByUID (some (t, hr)) = Except.ok none) ∧
    (∀ (hr : HttpResponse GraphQLResponse) (es : List String) (t : Nat), hr.ok = true →
        t < GraphQLService.queryTimeoutMs → hr.body.errors = some es →
        GraphQLService.queryAttestations (some (t, hr)) =
          Except.error ("GraphQL query failed: " ++
            ("GraphQL errors: " ++ String.intercalate ", " es))) ∧
    (∀ (hr : HttpResponse GraphQLResponse) (t : Nat), hr.ok = true →
        t < GraphQLService.queryTimeoutMs → hr.body.errors = none →
        hr.body.dataAttestations = none →
        GraphQLService.queryAttestations (some (t, hr)) =
          Except.error ("GraphQL query failed: " ++ "No data returned from GraphQL query")) := by
  refine ⟨?_, ?_, ?_, ?_⟩
  · intro hr t hok ht
    rw [GraphQLService.queryAttestationsByUID, fetchWithTimeout_before t hr ht]
    simp only [GraphQLService.queryAttestationsByUIDCore]
    rw [if_pos hok]
  · intro hr t hok ht habs
    rw [GraphQLService.queryAttestationsByUID, fetchWithTimeout_before t hr ht]
    simp only [GraphQLService.queryAttestationsByUIDCore]
    rw [hok]
    rw [if_neg (by decide)]
    rcases habs with h | h <;> rw [h]
  · intro hr es t hok ht herrs
    rw [GraphQLService.queryAttestations, fetchWithTimeout_before t hr ht]
    simp only [GraphQLService.queryAttestationsCore]
    rw [hok]
    rw [if_neg (by decide)]
    rw [herrs]
  · intro hr t hok ht herrs hdata
    rw [GraphQLService.queryAttestations, fetchWithTimeout_before t hr ht]
    simp only [GraphQLService.queryAttestationsCore]
    rw [hok]
    rw [if_neg (by decide)]
    rw [herrs, hdata]

/-- Transport failure response for the single lookup. -/
def notOkSingleResponse : HttpResponse GraphQLSingleResponse :=
  { ok := false, status := 500, statusText := "Internal Server Error",
    body := { dataAttestation := none, errors := none } }

/-- C7 witness: the response rules evaluated on a concrete transport failure
and on a concrete record-free success. -/
theorem C7_queryOne_response_rules_witness :
    GraphQLService.queryAttestationsByUID (some (0, notOkSingleResponse)) =
      Except.error ("GraphQL attestation query failed: " ++
        ("HTTP " ++ toString notOkSingleResponse.status ++ ": "
          ++ notOkSingleResponse.statusText)) ∧
    GraphQLService.queryAttestationsByUID (some (1, errorsOnlySingleResponse)) =
      Except.ok none :=
  ⟨C7_queryOne_response_rules.1 notOkSingleResponse 0 rfl (by decide),
   C7_queryOne_response_rules.2.1 errorsOnlySingleResponse 1 rfl (by decide) (Or.inl rfl)⟩

/-- C8: a write whose submission and confirmation succeed but whose
identifier derivation is unsupported or yields no value returns the literal
placeholder `unknown` together with the real transaction hash, and does not
throw — for schema registration and attestation creation alike. -/
theorem C8_unknown_placeholder (tx : TxResult) (hsh : String)
    (hd : tx.derivedUID = none ∨ tx.derivedUID = some "")
    (hh : tx.hash = some hsh) (hne : hsh ≠ "") :
    AttestationService.createSchema (Except.ok tx) =
      Except.ok { uid := "unknown", txHash := hsh } ∧
    AttestationService.issueAttestation (Except.ok tx) =
      Except.ok { uid := "unknown", txHash := hsh } := by
  have hu : jsOrDefaultStr tx.derivedUID "unknown" = "unknown" := by
    rcases hd with hd | hd <;> simp [jsOrDefaultStr, hd]
  have ht : jsOrDefaultStr tx.hash "unknown" = hsh := by
    simp [jsOrDefaultStr, hh, hne]
  constructor
  · simp only [AttestationService.createSchema, hu, ht]
  · simp only [AttestationService.issueAttestation, hu, ht]

/-- C8 witness: the placeholder theorem evaluated on a confirmed transaction
without a derivable identifier. -/
theorem C8_unknown_placeholder_witness :
    AttestationService.createSchema (Except.ok { hash := some "0xhash", derivedUID := none }) =
      Except.ok { uid := "unknown", txHash := "0xhash" } ∧
    AttestationService.issueAttestation (Except.ok { hash := some "0xhash", derivedUID := none }) =
      Except.ok { uid := "unknown", txHash := "0xhash" } :=
  C8_unknown_placeholder { hash := some "0xhash", derivedUID := none } "0xhash"
    (Or.inl rfl) rfl (by decide)

/-- The wrapped abort-failure message differs from every wrapped HTTP-status
failure message: the suffixes disagree at their first character. -/
theorem wrapped_abort_ne_http (r : String) :
    "GraphQL query failed: " ++ abortErrorMessage ≠
      "GraphQL query failed: " ++ ("HTTP " ++ r) := by
  intro h
  have h2 := congrArg String.data h
  simp only [String.data_append] at h2
  have h3 := List.append_cancel_left h2
  have h4 : ('T' :: "his operation was aborted".data) = 'H' :: ("TTP ".data ++ r.data) := h3
  exact absurd (List.cons_eq_cons.mp h4).1 (by decide)

/-- C9: both index queries race the request against a fixed 30000 ms abort
timer; a response not arriving before the deadline surfaces the abort
failure, and its message differs from that of every non-timeout HTTP
transport failure. -/
theorem C9_thirty_second_timeout :
    GraphQLService.queryTimeoutMs = 30000 ∧
    (∀ (t : Nat) (r : HttpResponse GraphQLResponse), GraphQLService.queryTimeoutMs ≤ t →
        GraphQLService.queryAttestations (some (t, r)) =
          Except.error ("GraphQL query failed: " ++ abortErrorMessage)) ∧
    (GraphQLService.queryAttestations none =
        Except.error ("GraphQL query failed: " ++ abortErrorMessage)) ∧
    (∀ (t : Nat) (r : HttpResponse GraphQLSingleResponse), GraphQLService.queryTimeoutMs ≤ t →
        GraphQLService.queryAttestationsByUID (some (t, r)) =
          Except.error ("GraphQL attestation query failed: " ++ abortErrorMessage)) ∧
    (GraphQLService.queryAttestationsByUID none =
        Except.error ("GraphQL attestation query failed: " ++ abortErrorMessage)) ∧
    (∀ (hr : HttpResponse GraphQLResponse) (t : Nat), hr.ok = false →
        t < GraphQLService.queryTimeoutMs →
        ∃ m, GraphQLService.queryAttestations (some (t, hr)) = Except.error m ∧
          m ≠ "GraphQL query failed: " ++ abortErrorMessage) := by
  refine ⟨rfl, ?_, rfl, ?_, rfl, ?_⟩
  · intro t r ht
    rw [GraphQLService.queryAttestations, fetchWithTimeout_elapsed t r ht]
    rfl
  · intro t r ht
    rw [GraphQLService.queryAttestationsByUID, fetchWithTimeout_elapsed t r ht]
    rfl
  · intro hr t hok ht
    refine ⟨"GraphQL query failed: " ++
      ("HTTP " ++ toString hr.status ++ ": " ++ hr.statusText), ?_, ?_⟩
    · rw [GraphQLService.queryAttestations, fetchWithTimeout_before t hr ht]
      simp only [GraphQLService.queryAttestationsCore]
      rw [if_pos hok]
    · have hassoc : "HTTP " ++ toString hr.status ++ ": " ++ hr.statusText =
          "HTTP " ++ (toString hr.status ++ (": " ++ hr.statusText)) := by
        rw [String.append_assoc, String.append_assoc]
      rw [hassoc]
      exact Ne.symm (wrapped_abort_ne_http (toString hr.status ++ (": " ++ hr.statusText)))

/-- Transport failure response for the list query. -/
def notOkListResponse : HttpResponse GraphQLResponse :=
  { ok := false, status := 500, statusText := "Internal Server Error",
    body := { dataAttestations := none, errors := none } }

/-- C9 witness: the timeout theorem evaluated at the deadline boundary and on
a concrete non-timeout transport failure. -/
theorem C9_thirty_second_timeout_witness :
    GraphQLService.queryAttestations (some (30000, notOkListResponse)) =
      Except.error ("GraphQL query failed: " ++ abortErrorMessage) ∧
    (∃ m, GraphQLService.queryAttestations (some (0, notOkListResponse)) = Except.error m ∧
      m ≠ "GraphQL query failed: " ++ abortErrorMessage) :=
  ⟨C9_thirty_second_timeout.2.1 30000 notOkListResponse (by decide),
   C9_thirty_second_timeout.2.2.2.2.2 notOkListResponse 0 rfl (by decide)⟩

/-- C10: a missing limit and an explicit zero limit are both falsy, so the
request variables carry the default limit 10 in either case, while any
non-zero limit passes through unchanged. -/
theorem C10_limit_falsy_default (f : QueryFilters) :
    (f.limit = none → (GraphQLService.buildQueryVariables f).limit = 10) ∧
    (f.limit = some 0 → (GraphQLService.buildQueryVariables f).limit = 10) ∧
    (∀ n : Int, f.limit = some n → n ≠ 0 →
      (GraphQLService.buildQueryVariables f).limit = n) := by
  refine ⟨?_, ?_, ?_⟩
  · intro h
    simp [GraphQLService.buildQueryVariables, jsOrDefaultInt, h]
  · intro h
    simp [GraphQLService.buildQueryVariables, jsOrDefaultInt, h]
  · intro n h hn
    simp [GraphQLService.buildQueryVariables, jsOrDefaultInt, h, hn]

/-- C10 witness: an explicit zero limit is replaced by the default 10. -/
theorem C10_limit_falsy_default_witness :
    (GraphQLService.buildQueryVariables
      { recipient := none, attester := none, schema := none, limit := some 0 }).limit = 10 :=
  (C10_limit_falsy_default
    { recipient := none, attester := none, schema := none, limit := some 0 }).2.1 rfl

end RskAttest
